import Mathlib

/-!
Shallow embedding of `src/bot.py`, a Telegram ↔ Dify relay bot.

Python dictionaries are modelled as association lists in insertion order
(`alist_get` returns the value at the first matching key, as Python keys are
unique; `alist_set` updates the value in place or appends a fresh key at the
end, exactly like `d[k] = v`).  The global `user_conversations` is a
`defaultdict(dict)`, so a plain subscript access inserts an empty inner dict
for a missing user; `store_getitem` models that access, returning both the
inner dict and the possibly-extended mapping.

Network effects are modelled by an oracle `api : Payload → ApiResult` saying,
for each outgoing payload, whether `client.post` + `raise_for_status` +
`response.json()` yields a parsed JSON body (`success`), raises
`httpx.HTTPStatusError` with a status code (`httpError`), or raises any other
exception — timeout, DNS failure, connection refused, malformed body
(`connError`).  `call_dify_api` returns the reply together with the list of
outbound payloads actually sent, so that "exactly n outbound calls" is the
length of that trace.
-/

namespace DifyBot

/-- The JSON payload sent to the Dify endpoint.  The Python code also sends
`"inputs": {}` (always the empty object) and the bearer/content-type headers,
which carry no information and are omitted; `response_mode` is kept even
though `handle_message` always sets it to `"blocking"`. -/
structure Payload where
  query : String
  response_mode : String
  user : String
  conversation_id : Option String
deriving DecidableEq, Repr

/-- A parsed JSON response body, as the Python code reads it: an optional
`answer` string and an optional `conversation_id` string (`.get("answer")`,
`"conversation_id" in response`).  The error dicts built inside
`call_dify_api` contain only `answer`, i.e. `conversation_id := none`. -/
structure Reply where
  answer : Option String
  conversation_id : Option String
deriving DecidableEq, Repr

/-- Outcome of one `client.post` + `raise_for_status` + `.json()` round
trip: `success body` (2xx with parsed JSON `body`), `httpError code`
(`httpx.HTTPStatusError` carrying the status code), or `connError` (any other
exception: timeout, DNS, connection refused, bad JSON body, ...). -/
inductive ApiResult where
  | success (body : Reply)
  | httpError (code : Nat)
  | connError
deriving DecidableEq, Repr

/-- `f"⚠️ API Error: {e.response.status_code}"` from `bot.py`. -/
def api_error_text (code : Nat) : String :=
  "⚠️ API Error: " ++ toString code

/-- `"⚠️ Service unavailable, please try later"` from `bot.py`. -/
def service_unavailable_text : String :=
  "⚠️ Service unavailable, please try later"

/-- `"🤖 No response received"`, the default in
`response.get("answer", "🤖 No response received")`. -/
def no_response_text : String :=
  "🤖 No response received"

/-- Termination measure for `call_dify_api`: the retry branch pops
`conversation_id`, so the recursive call is on a payload without it. -/
def cid_weight (p : Payload) : Nat :=
  if p.conversation_id.isSome then 1 else 0

/-- `call_dify_api(payload)` from `bot.py`, with the outbound-call trace made
explicit.  On success it returns the parsed body; on an HTTP status error it
retries once without `conversation_id` when the status is 404 and the payload
contained a `conversation_id` (`payload.pop("conversation_id")` followed by a
recursive call), otherwise it returns the diagnostic `answer`; on any other
exception it returns the service-unavailable `answer`. -/
def call_dify_api (api : Payload → ApiResult) (payload : Payload) :
    Reply × List Payload :=
  match api payload with
  | .success body => (body, [payload])
  | .httpError code =>
    if h : code = 404 ∧ payload.conversation_id.isSome then
      let r := call_dify_api api { payload with conversation_id := none }
      (r.1, payload :: r.2)
    else
      ({ answer := some (api_error_text code), conversation_id := none },
        [payload])
  | .connError =>
      ({ answer := some service_unavailable_text, conversation_id := none },
        [payload])
termination_by cid_weight payload
decreasing_by simp [cid_weight, h.2]

/-- A Python dict with string keys and string values, in insertion order. -/
abbrev Dict := List (String × String)

/-- The in-memory `user_conversations` mapping: user id → inner dict. -/
abbrev Store := List (String × Dict)

/-- First-match association-list lookup: Python `d.get(k)` / `k in d`. -/
def alist_get {α : Type} : List (String × α) → String → Option α
  | [], _ => none
  | (k, v) :: rest, key => if k = key then some v else alist_get rest key

/-- Python `d[k] = v`: overwrite the existing entry in place, or append a
fresh key at the end (dicts preserve insertion order). -/
def alist_set {α : Type} : List (String × α) → String → α → List (String × α)
  | [], key, v => [(key, v)]
  | (k, w) :: rest, key, v =>
    if k = key then (k, v) :: rest else (k, w) :: alist_set rest key v

/-- Python `d.update(v)`: set each of `v`'s entries into `d`, in order. -/
def dict_update (d : Dict) : Dict → Dict
  | [] => d
  | (k, v) :: rest => dict_update (alist_set d k v) rest

/-- A `defaultdict(dict)` subscript access `user_conversations[u]`: returns
the inner dict, inserting a fresh empty one for a missing key.  The second
component is the mapping after the access. -/
def store_getitem (s : Store) (u : String) : Dict × Store :=
  match alist_get s u with
  | some d => (d, s)
  | none => ([], s ++ [(u, [])])

/-- Python `user_conversations[u][key] = v` (a defaultdict access followed by
an in-place update of the shared inner dict). -/
def store_set (s : Store) (u key v : String) : Store :=
  let g := store_getitem s u
  alist_set g.2 u (alist_set g.1 key v)

/-- The spec's Conversation Store `set_conversation_id(user_id, id)`; in
`bot.py` it is the inline statement
`user_conversations[user_id]['conversation_id'] = response["conversation_id"]`. -/
def set_conversation_id (s : Store) (u cid : String) : Store :=
  store_set s u "conversation_id" cid

/-- The value returned by the spec's `get(user_id)`: the user's current inner
dict, or the empty default for a user never seen.  (The defaultdict access
itself also mutates the mapping; that effect is `store_getitem`.) -/
def get_state (s : Store) (u : String) : Dict :=
  (store_getitem s u).1

/-- `save_conversations()` from `bot.py`: the JSON object written to the file
is `{k: v for k, v in user_conversations.items() if v}`, i.e. the entries
with a non-empty inner dict, in order. -/
def save_conversations (s : Store) : List (String × Dict) :=
  s.filter (fun kv => !kv.2.isEmpty)

/-- One value of the top-level JSON object read back by
`load_conversations`.  `dict d` is a JSON object (this program only ever
writes string values); `bad` is any JSON value on which `dict.update` raises
(a number, string, boolean, null ...). -/
inductive JEntry where
  | dict (d : Dict)
  | bad
deriving DecidableEq, Repr

/-- The state of the backing `conversations.json` file as `load_conversations`
sees it: `missing` (`os.path.exists` is false), `unparsable` (`open` or
`json.load` raises, or the top level is not an object so `.items()` raises
before any merge), or `parsed entries` (a top-level JSON object). -/
inductive FileState where
  | missing
  | unparsable
  | parsed (entries : List (String × JEntry))
deriving DecidableEq, Repr

/-- The merge loop `for k, v in loaded.items(): user_conversations[k].update(v)`.
A `bad` value raises inside `dict.update`, which the surrounding `except`
catches, keeping every change made so far — including the empty inner dict
that the defaultdict access `user_conversations[k]` just inserted for `k`. -/
def merge_entries : Store → List (String × JEntry) → Store
  | s, [] => s
  | s, (k, .dict v) :: rest =>
    let g := store_getitem s k
    merge_entries (alist_set g.2 k (dict_update g.1 v)) rest
  | s, (k, .bad) :: _ => (store_getitem s k).2

/-- `load_conversations()` from `bot.py`, as a function of the backing file's
state: a missing file is skipped, any read/parse exception is caught and
logged, and a parsed object is merged entry by entry. -/
def load_conversations (fs : FileState) (s : Store) : Store :=
  match fs with
  | .missing => s
  | .unparsable => s
  | .parsed entries => merge_entries s entries

/-- Whether this load attempt fails, i.e. reaches the `except` branch and
logs an error: a read/parse exception, or a merge aborted by a `bad` value. -/
def load_fails (fs : FileState) : Bool :=
  match fs with
  | .missing => false
  | .unparsable => true
  | .parsed entries => entries.any (fun e => e.2 = JEntry.bad)

/-- Re-reading a file that `save_conversations` just wrote: every saved inner
dict is a JSON object. -/
def file_of_saved (m : List (String × Dict)) : FileState :=
  .parsed (m.map (fun kv => (kv.1, JEntry.dict kv.2)))

/-- The payload built by `handle_message`: `inputs: {}` (omitted), the
message text as `query`, `response_mode: "blocking"`, the user id, and the
stored conversation id — attached only when
`user_conversations[user_id].get('conversation_id')` is truthy, i.e. present
and not the empty string. -/
def build_payload (s : Store) (user_id text : String) : Payload :=
  { query := text
    response_mode := "blocking"
    user := user_id
    conversation_id :=
      match alist_get (get_state s user_id) "conversation_id" with
      | some c => if c = "" then none else some c
      | none => none }

/-- `handle_message` from `bot.py`, as a function of the API oracle and the
store, returning the store after the call and the text replied to the user.
The typing-indicator side effect is ignored.  The defaultdict access in
`if user_conversations[user_id].get('conversation_id'):` inserts an entry for
a new user; the reply's `conversation_id`, when present, is stored; the text
sent back is `response.get("answer", "🤖 No response received")`. -/
def handle_message (api : Payload → ApiResult) (s : Store)
    (user_id text : String) : Store × String :=
  let s1 := (store_getitem s user_id).2
  let response := (call_dify_api api (build_payload s user_id text)).1
  let s2 :=
    match response.conversation_id with
    | some c => store_set s1 user_id "conversation_id" c
    | none => s1
  (s2, response.answer.getD no_response_text)

/-- Well-formed inner dict: unique keys, as in any Python dict. -/
def dictWF (d : Dict) : Prop :=
  (d.map Prod.fst).Nodup

/-- Well-formed store: unique user keys and well-formed inner dicts. -/
def storeWF (s : Store) : Prop :=
  (s.map Prod.fst).Nodup ∧ ∀ kv ∈ s, dictWF kv.2

instance (d : Dict) : Decidable (dictWF d) := by
  unfold dictWF; infer_instance

instance (s : Store) : Decidable (storeWF s) := by
  unfold storeWF; exact instDecidableAnd

/-- The simulated remote API of the spec's retry scenario: HTTP 404 when
called with `conversation_id="stale"`, HTTP 200 with
`{"answer": "hi", "conversation_id": "new"}` when called without one. -/
def scenario_api (p : Payload) : ApiResult :=
  if p.conversation_id = some "stale" then .httpError 404
  else .success { answer := some "hi", conversation_id := some "new" }

/-! ### Unfolding lemmas for `call_dify_api` -/

theorem call_eq_success (api : Payload → ApiResult) (p : Payload) (b : Reply)
    (h : api p = .success b) : call_dify_api api p = (b, [p]) := by
  rw [call_dify_api, h]

theorem call_eq_conn (api : Payload → ApiResult) (p : Payload)
    (h : api p = .connError) :
    call_dify_api api p =
      ({ answer := some service_unavailable_text, conversation_id := none },
        [p]) := by
  rw [call_dify_api, h]

theorem call_eq_http (api : Payload → ApiResult) (p : Payload) (code : Nat)
    (h : api p = .httpError code)
    (hn : ¬(code = 404 ∧ p.conversation_id.isSome)) :
    call_dify_api api p =
      ({ answer := some (api_error_text code), conversation_id := none },
        [p]) := by
  rw [call_dify_api, h]
  simp [hn]

theorem call_eq_retry (api : Payload → ApiResult) (p : Payload)
    (h : api p = .httpError 404) (hc : p.conversation_id.isSome) :
    call_dify_api api p =
      ((call_dify_api api { p with conversation_id := none }).1,
        p :: (call_dify_api api { p with conversation_id := none }).2) := by
  rw [call_dify_api, h]
  simp [hc]

/-- A call whose payload carries no conversation id makes exactly one
outbound call, whatever the API answers: the retry guard is false. -/
theorem call_trace_no_cid (api : Payload → ApiResult) (p : Payload)
    (hp : p.conversation_id = none) : (call_dify_api api p).2 = [p] := by
  match hr : api p with
  | .success b => rw [call_eq_success api p b hr]
  | .httpError code =>
    rw [call_eq_http api p code hr]
    simp [hp]
  | .connError => rw [call_eq_conn api p hr]

/-! ### Association-list lemmas -/

theorem alist_get_eq_none {α : Type} (s : List (String × α)) (k : String) :
    alist_get s k = none ↔ k ∉ s.map Prod.fst := by
  induction s with
  | nil => simp [alist_get]
  | cons kv rest ih =>
    obtain ⟨k', v⟩ := kv
    by_cases h : k' = k <;> simp [alist_get, h, ih] <;> tauto

theorem alist_get_mem {α : Type} {s : List (String × α)} {k : String} {v : α}
    (h : alist_get s k = some v) : (k, v) ∈ s := by
  induction s with
  | nil => simp [alist_get] at h
  | cons kv rest ih =>
    obtain ⟨k', w⟩ := kv
    by_cases hk : k' = k
    · subst hk
      simp [alist_get] at h
      simp [h]
    · simp [alist_get, hk] at h
      simp [ih h]

theorem alist_get_set_self {α : Type} (s : List (String × α)) (k : String)
    (v : α) : alist_get (alist_set s k v) k = some v := by
  induction s with
  | nil => simp [alist_set, alist_get]
  | cons kv rest ih =>
    obtain ⟨k', w⟩ := kv
    by_cases h : k' = k <;> simp [alist_set, alist_get, h, ih]

theorem alist_set_ne_nil {α : Type} (s : List (String × α)) (k : String)
    (v : α) : alist_set s k v ≠ [] := by
  cases s with
  | nil => simp [alist_set]
  | cons kv rest =>
    obtain ⟨k', w⟩ := kv
    by_cases h : k' = k <;> simp [alist_set, h]

theorem alist_set_fresh {α : Type} {s : List (String × α)} {k : String}
    (v : α) (h : alist_get s k = none) : alist_set s k v = s ++ [(k, v)] := by
  induction s with
  | nil => simp [alist_set]
  | cons kv rest ih =>
    obtain ⟨k', w⟩ := kv
    by_cases hk : k' = k
    · simp [alist_get, hk] at h
    · simp [alist_get, hk] at h
      simp [alist_set, hk, ih h]

theorem alist_get_append_left {α : Type} {s : List (String × α)}
    (t : List (String × α)) {k : String} {v : α} (h : alist_get s k = some v) :
    alist_get (s ++ t) k = some v := by
  induction s with
  | nil => simp [alist_get] at h
  | cons kv rest ih =>
    obtain ⟨k', w⟩ := kv
    by_cases hk : k' = k <;> simp [alist_get, hk] at h ⊢ <;> simp_all [ih]

theorem alist_get_append_right {α : Type} {s : List (String × α)}
    (t : List (String × α)) {k : String} (h : alist_get s k = none) :
    alist_get (s ++ t) k = alist_get t k := by
  induction s with
  | nil => simp
  | cons kv rest ih =>
    obtain ⟨k', w⟩ := kv
    by_cases hk : k' = k <;> simp [alist_get, hk] at h ⊢ <;> simp_all [ih]

theorem alist_set_append_fresh {α : Type} {s : List (String × α)}
    {k : String} (d v : α) (h : alist_get s k = none) :
    alist_set (s ++ [(k, d)]) k v = s ++ [(k, v)] := by
  induction s with
  | nil => simp [alist_set]
  | cons kv rest ih =>
    obtain ⟨k', w⟩ := kv
    by_cases hk : k' = k
    · simp [alist_get, hk] at h
    · simp [alist_get, hk] at h
      simp [alist_set, hk, ih h]

theorem keys_alist_set_some {α : Type} {s : List (String × α)} {k : String}
    {w : α} (v : α) (h : alist_get s k = some w) :
    (alist_set s k v).map Prod.fst = s.map Prod.fst := by
  induction s with
  | nil => simp [alist_get] at h
  | cons kv rest ih =>
    obtain ⟨k', w'⟩ := kv
    by_cases hk : k' = k
    · simp [alist_set, hk]
    · simp [alist_get, hk] at h
      simp [alist_set, hk, ih h]

theorem mem_alist_set {α : Type} {s : List (String × α)} {k : String} {v : α}
    {kv : String × α} (h : kv ∈ alist_set s k v) : kv ∈ s ∨ kv = (k, v) := by
  induction s with
  | nil => simp [alist_set] at h; simp [h]
  | cons kv' rest ih =>
    obtain ⟨k', w⟩ := kv'
    by_cases hk : k' = k
    · subst hk
      simp [alist_set] at h
      rcases h with h | h
      · right; simp [h]
      · left; simp [h]
    · simp [alist_set, hk] at h
      rcases h with h | h
      · left; simp [h]
      · rcases ih h with h' | h'
        · left; simp [h']
        · right; exact h'

theorem dictWF_alist_set {d : Dict} (k v : String) (h : dictWF d) :
    dictWF (alist_set d k v) := by
  cases hg : alist_get d k with
  | some w => unfold dictWF; rw [keys_alist_set_some v hg]; exact h
  | none =>
    unfold dictWF
    rw [alist_set_fresh v hg]
    rw [alist_get_eq_none] at hg
    simp [List.nodup_append, hg]
    exact h

/-! ### `dict_update`, merge and save lemmas -/

theorem dict_update_disjoint (v : Dict) :
    ∀ d : Dict, (∀ kv ∈ v, alist_get d kv.1 = none) → dictWF v →
      dict_update d v = d ++ v := by
  induction v with
  | nil => intro d _ _; simp [dict_update]
  | cons kv rest ih =>
    intro d hdis hWF
    obtain ⟨k, x⟩ := kv
    have hk : alist_get d k = none := hdis (k, x) (by simp)
    have hstep : alist_set d k x = d ++ [(k, x)] := alist_set_fresh x hk
    have hcons := List.nodup_cons.mp
      (show (k :: rest.map Prod.fst).Nodup from hWF)
    have hWFr : dictWF rest := hcons.2
    have hkrest : k ∉ rest.map Prod.fst := hcons.1
    have hdis' : ∀ kv ∈ rest, alist_get (d ++ [(k, x)]) kv.1 = none := by
      intro kv hmem
      have h1 : alist_get d kv.1 = none := hdis kv (by simp [hmem])
      rw [alist_get_append_right _ h1]
      have hne : k ≠ kv.1 := by
        intro hcon
        exact hkrest (hcon ▸ List.mem_map_of_mem Prod.fst hmem)
      simp [alist_get, hne]
    calc dict_update d ((k, x) :: rest)
        = dict_update (alist_set d k x) rest := rfl
      _ = dict_update (d ++ [(k, x)]) rest := by rw [hstep]
      _ = (d ++ [(k, x)]) ++ rest := ih (d ++ [(k, x)]) hdis' hWFr
      _ = d ++ ((k, x) :: rest) := by simp

theorem dict_update_nil {v : Dict} (hWF : dictWF v) : dict_update [] v = v := by
  have h := dict_update_disjoint v [] (by intro kv _; simp [alist_get]) hWF
  simpa using h

/-- Merging a well-formed object whose keys are all fresh for the target
store appends its entries unchanged. -/
theorem merge_entries_fresh (m : List (String × Dict)) :
    ∀ s : Store, (m.map Prod.fst).Nodup → (∀ kv ∈ m, dictWF kv.2) →
      (∀ kv ∈ m, alist_get s kv.1 = none) →
      merge_entries s (m.map (fun kv => (kv.1, JEntry.dict kv.2))) = s ++ m := by
  induction m with
  | nil => intro s _ _ _; simp [merge_entries]
  | cons kv rest ih =>
    intro s hnd hWF hdis
    obtain ⟨k, d⟩ := kv
    have hk : alist_get s k = none := hdis (k, d) (by simp)
    have hWFd : dictWF d := hWF (k, d) (by simp)
    have hcons := List.nodup_cons.mp
      (show (k :: rest.map Prod.fst).Nodup from hnd)
    have hkrest : k ∉ rest.map Prod.fst := hcons.1
    have hgot : store_getitem s k = ([], s ++ [(k, [])]) := by
      simp [store_getitem, hk]
    have hset : alist_set (s ++ [(k, [])]) k (dict_update [] d) = s ++ [(k, d)] := by
      rw [dict_update_nil hWFd]
      exact alist_set_append_fresh [] d hk
    have hdis' : ∀ kv ∈ rest, alist_get (s ++ [(k, d)]) kv.1 = none := by
      intro kv hmem
      rw [alist_get_append_right _ (hdis kv (by simp [hmem]))]
      have hne : k ≠ kv.1 := by
        intro hcon
        exact hkrest (hcon ▸ List.mem_map_of_mem Prod.fst hmem)
      simp [alist_get, hne]
    have hnd' : (rest.map Prod.fst).Nodup := hcons.2
    have hWF' : ∀ kv ∈ rest, dictWF kv.2 := fun kv hmem => hWF kv (by simp [hmem])
    calc merge_entries s (((k, d) :: rest).map (fun kv => (kv.1, JEntry.dict kv.2)))
        = merge_entries (alist_set (s ++ [(k, [])]) k (dict_update [] d))
            (rest.map (fun kv => (kv.1, JEntry.dict kv.2))) := by
          simp [merge_entries, hgot]
      _ = merge_entries (s ++ [(k, d)]) (rest.map (fun kv => (kv.1, JEntry.dict kv.2))) := by
          rw [hset]
      _ = (s ++ [(k, d)]) ++ rest := ih (s ++ [(k, d)]) hnd' hWF' hdis'
      _ = s ++ ((k, d) :: rest) := by simp

/-- Filtering never disturbs the first occurrence of a key it keeps. -/
theorem alist_get_filter {α : Type} (p : String × α → Bool) {s : List (String × α)}
    {k : String} {v : α} (h : alist_get s k = some v) (hp : p (k, v) = true) :
    alist_get (s.filter p) k = some v := by
  induction s with
  | nil => simp [alist_get] at h
  | cons kv rest ih =>
    obtain ⟨k', w⟩ := kv
    by_cases hk : k' = k
    · subst hk
      simp [alist_get] at h
      subst h
      simp [List.filter, hp, alist_get]
    · simp [alist_get, hk] at h
      cases hpw : p (k', w) <;> simp [List.filter, hpw, alist_get, hk, ih h]

theorem storeWF_save {s : Store} (h : storeWF s) :
    storeWF (save_conversations s) := by
  constructor
  · exact h.1.sublist ((List.filter_sublist s).map Prod.fst)
  · intro kv hmem
    exact h.2 kv (List.mem_of_mem_filter hmem)

theorem storeWF_store_set {s : Store} (u key v : String) (h : storeWF s) :
    storeWF (store_set s u key v) := by
  cases hg : alist_get s u with
  | some d =>
    have hgot : store_getitem s u = (d, s) := by simp [store_getitem, hg]
    have hWFd : dictWF d := h.2 (u, d) (alist_get_mem hg)
    constructor
    · unfold store_set
      rw [hgot]
      rw [keys_alist_set_some _ hg]
      exact h.1
    · intro kv hmem
      unfold store_set at hmem
      rw [hgot] at hmem
      rcases mem_alist_set hmem with h' | h'
      · exact h.2 kv h'
      · rw [h']
        exact dictWF_alist_set key v hWFd
  | none =>
    have hgot : store_getitem s u = ([], s ++ [(u, [])]) := by
      simp [store_getitem, hg]
    have hset : store_set s u key v = s ++ [(u, alist_set [] key v)] := by
      unfold store_set
      rw [hgot]
      exact alist_set_append_fresh [] (alist_set [] key v) hg
    rw [hset]
    constructor
    · rw [alist_get_eq_none] at hg
      simp [List.nodup_append, hg]
      exact h.1
    · intro kv hmem
      simp at hmem
      rcases hmem with h' | h'
      · exact h.2 kv h'
      · rw [h']
        simp [alist_set, dictWF]

/-! ### Handler lemmas -/

/-- The defaultdict access performed by `handle_message` never changes the
value that a later `get` of the same user observes. -/
theorem get_state_getitem (s : Store) (u : String) :
    get_state ((store_getitem s u).2) u = get_state s u := by
  cases hg : alist_get s u with
  | some d => simp [store_getitem, hg]
  | none =>
    have h2 : alist_get (s ++ [(u, [])]) u = some [] := by
      rw [alist_get_append_right _ hg]
      simp [alist_get]
    simp [get_state, store_getitem, hg, h2]

/-- `merge_entries` processes an all-object prefix first, then the rest. -/
theorem merge_entries_append_dicts (xs : List (String × Dict)) :
    ∀ (s : Store) (ys : List (String × JEntry)),
      merge_entries s (xs.map (fun kv => (kv.1, JEntry.dict kv.2)) ++ ys) =
        merge_entries (merge_entries s (xs.map (fun kv => (kv.1, JEntry.dict kv.2)))) ys := by
  induction xs with
  | nil => intro s ys; rfl
  | cons kv rest ih =>
    intro s ys
    obtain ⟨k, d⟩ := kv
    simp only [List.map_cons, List.cons_append, merge_entries]
    exact ih _ ys

/-! ### Claim theorems -/

/-- C1: when the request payload contains a conversation identifier and the
remote call fails with HTTP 404, the client retries exactly once with the
identifier removed — the caller observes exactly the two outbound payloads
(the original and the stripped one, whatever the second call returns, so a
second 404 triggers no further retry) — and the reply is exactly the reply
of a single call without the identifier. -/
theorem claim_retry_404_once (api : Payload → ApiResult) (p : Payload)
    (h1 : p.conversation_id.isSome) (h2 : api p = .httpError 404) :
    (call_dify_api api p).2 = [p, { p with conversation_id := none }] ∧
    (call_dify_api api p).1 =
      (call_dify_api api { p with conversation_id := none }).1 := by
  rw [call_eq_retry api p h2 h1]
  refine ⟨?_, rfl⟩
  rw [call_trace_no_cid api { p with conversation_id := none } rfl]

/-- C1 witness: the spec's simulated scenario — 404 with
`conversation_id = "stale"`, 200 with answer `"hi"` without one —
`send("hello", "u1", "stale")` makes exactly the two outbound calls and
yields answer `"hi"`. -/
theorem claim_retry_404_once_witness :
    (call_dify_api scenario_api
      { query := "hello", response_mode := "blocking", user := "u1",
        conversation_id := some "stale" }).2 =
      [{ query := "hello", response_mode := "blocking", user := "u1",
         conversation_id := some "stale" },
       { query := "hello", response_mode := "blocking", user := "u1",
         conversation_id := none }] ∧
    (call_dify_api scenario_api
      { query := "hello", response_mode := "blocking", user := "u1",
        conversation_id := some "stale" }).1.answer = some "hi" := by
  have h := claim_retry_404_once scenario_api
    { query := "hello", response_mode := "blocking", user := "u1",
      conversation_id := some "stale" } (by decide) (by decide)
  refine ⟨h.1, ?_⟩
  rw [h.2, call_eq_success scenario_api _
    { answer := some "hi", conversation_id := some "new" } (by decide)]

/-- C2: any HTTP error status outside the 404-with-conversation-id case
yields a reply whose answer embeds the status code, with exactly one
outbound call and no retry. -/
theorem claim_http_error_no_retry (api : Payload → ApiResult) (p : Payload)
    (code : Nat) (h : api p = .httpError code)
    (hn : ¬(code = 404 ∧ p.conversation_id.isSome)) :
    (call_dify_api api p).1.answer =
      some ("⚠️ API Error: " ++ toString code) ∧
    (call_dify_api api p).2 = [p] := by
  rw [call_eq_http api p code h hn]
  exact ⟨rfl, rfl⟩

/-- C2 witness: a simulated API returning HTTP 500 unconditionally gives the
diagnostic answer containing "500" and a single outbound call. -/
theorem claim_http_error_no_retry_witness :
    (call_dify_api (fun _ => ApiResult.httpError 500)
      { query := "hello", response_mode := "blocking", user := "u1",
        conversation_id := none }).1.answer = some "⚠️ API Error: 500" ∧
    (call_dify_api (fun _ => ApiResult.httpError 500)
      { query := "hello", response_mode := "blocking", user := "u1",
        conversation_id := none }).2 =
      [{ query := "hello", response_mode := "blocking", user := "u1",
         conversation_id := none }] :=
  claim_http_error_no_retry (fun _ => ApiResult.httpError 500)
    { query := "hello", response_mode := "blocking", user := "u1",
      conversation_id := none } 500 rfl (by decide)

/-- C3: any lower-level connectivity failure yields the literal
service-unavailable answer, with exactly one outbound call and no retry. -/
theorem claim_conn_error_no_retry (api : Payload → ApiResult) (p : Payload)
    (h : api p = .connError) :
    (call_dify_api api p).1.answer =
      some "⚠️ Service unavailable, please try later" ∧
    (call_dify_api api p).2 = [p] := by
  rw [call_eq_conn api p h]
  exact ⟨rfl, rfl⟩

/-- C3 witness: a simulated API that times out on every call. -/
theorem claim_conn_error_no_retry_witness :
    (call_dify_api (fun _ => ApiResult.connError)
      { query := "hello", response_mode := "blocking", user := "u1",
        conversation_id := some "c" }).1.answer =
      some "⚠️ Service unavailable, please try later" ∧
    (call_dify_api (fun _ => ApiResult.connError)
      { query := "hello", response_mode := "blocking", user := "u1",
        conversation_id := some "c" }).2 =
      [{ query := "hello", response_mode := "blocking", user := "u1",
         conversation_id := some "c" }] :=
  claim_conn_error_no_retry (fun _ => ApiResult.connError)
    { query := "hello", response_mode := "blocking", user := "u1",
      conversation_id := some "c" } rfl

/-- C6: a successful remote response whose JSON body has no `answer` field
makes the handler deliver the literal "no response received" placeholder. -/
theorem claim_missing_answer_placeholder (api : Payload → ApiResult)
    (s : Store) (u text : String) (b : Reply)
    (h : api (build_payload s u text) = .success b) (hb : b.answer = none) :
    (handle_message api s u text).2 = "🤖 No response received" := by
  simp only [handle_message]
  rw [call_eq_success _ _ _ h]
  simp [hb, no_response_text]

/-- C6 witness: an API answering 200 with an empty JSON object. -/
theorem claim_missing_answer_placeholder_witness :
    (handle_message
      (fun _ => ApiResult.success { answer := none, conversation_id := none })
      [] "u1" "hi").2 = "🤖 No response received" :=
  claim_missing_answer_placeholder
    (fun _ => ApiResult.success { answer := none, conversation_id := none })
    [] "u1" "hi" { answer := none, conversation_id := none } rfl rfl

/-- C4: for every well-formed store and every user, setting the user's
conversation id, saving, and loading the saved file into an empty store
restores that conversation id (persistence round-trip). -/
theorem claim_persistence_round_trip (s : Store) (u cid : String)
    (hWF : storeWF s) :
    alist_get
      (get_state
        (load_conversations
          (file_of_saved (save_conversations (set_conversation_id s u cid)))
          []) u)
      "conversation_id" = some cid := by
  have hWF1 : storeWF (set_conversation_id s u cid) :=
    storeWF_store_set u "conversation_id" cid hWF
  have hget1 : alist_get (set_conversation_id s u cid) u =
      some (alist_set (store_getitem s u).1 "conversation_id" cid) :=
    alist_get_set_self _ _ _
  have hd1ne :
      (!(alist_set (store_getitem s u).1 "conversation_id" cid).isEmpty) = true := by
    have h := alist_set_ne_nil (store_getitem s u).1 "conversation_id" cid
    simpa [List.isEmpty_iff] using h
  have hsave : alist_get (save_conversations (set_conversation_id s u cid)) u =
      some (alist_set (store_getitem s u).1 "conversation_id" cid) :=
    alist_get_filter _ hget1 hd1ne
  have hWFs : storeWF (save_conversations (set_conversation_id s u cid)) :=
    storeWF_save hWF1
  have hload :
      load_conversations
        (file_of_saved (save_conversations (set_conversation_id s u cid))) [] =
        save_conversations (set_conversation_id s u cid) := by
    show merge_entries [] _ = _
    rw [merge_entries_fresh _ [] hWFs.1 hWFs.2 (fun kv _ => rfl)]
    simp
  rw [hload]
  simp only [get_state, store_getitem, hsave]
  exact alist_get_set_self _ _ _

/-- C4 witness: the concrete round-trip of the spec, with user "u1" and
identifier "abc" starting from the empty store. -/
theorem claim_persistence_round_trip_witness :
    alist_get
      (get_state
        (load_conversations
          (file_of_saved (save_conversations (set_conversation_id [] "u1" "abc")))
          []) "u1")
      "conversation_id" = some "abc" :=
  claim_persistence_round_trip [] "u1" "abc" (by decide)

/-- C5: `save_conversations` serializes exactly the non-empty entries: every
serialized entry is non-empty, and a user whose only trace in the mapping is
the empty default entry created by a lookup changes nothing in the saved
snapshot. -/
theorem claim_save_skips_empty (s : Store) (u : String) :
    (∀ kv ∈ save_conversations s, kv.2 ≠ []) ∧
    (alist_get s u = none →
      save_conversations ((store_getitem s u).2) = save_conversations s) := by
  constructor
  · intro kv hmem
    have h := List.of_mem_filter hmem
    simpa using h
  · intro h
    simp [store_getitem, h, save_conversations, List.filter_append]

/-- C5 witness: a store with one non-empty and one empty entry, and a lookup
of an unseen user "c". -/
theorem claim_save_skips_empty_witness :
    (∀ kv ∈ save_conversations
      [("a", [("conversation_id", "x")]), ("b", [])], kv.2 ≠ []) ∧
    save_conversations
      ((store_getitem [("a", [("conversation_id", "x")]), ("b", [])] "c").2) =
      save_conversations [("a", [("conversation_id", "x")]), ("b", [])] :=
  ⟨(claim_save_skips_empty [("a", [("conversation_id", "x")]), ("b", [])] "c").1,
    (claim_save_skips_empty [("a", [("conversation_id", "x")]), ("b", [])] "c").2
      (by decide)⟩

/-- C7 counterexample: a backing file that parses as a JSON object but whose
second value is not an object makes the load attempt fail (the exception is
caught and logged), yet the in-memory mapping is changed: the first entry is
merged and the offending key gains an empty default entry. -/
theorem counterexample_partial_load :
    load_fails
      (.parsed [("a", .dict [("conversation_id", "x")]), ("b", .bad)]) = true ∧
    load_conversations
      (.parsed [("a", .dict [("conversation_id", "x")]), ("b", .bad)]) [] =
      [("a", [("conversation_id", "x")]), ("b", [])] ∧
    load_conversations
      (.parsed [("a", .dict [("conversation_id", "x")]), ("b", .bad)]) [] ≠
      ([] : Store) := by
  refine ⟨by decide, by decide, by decide⟩

/-- C7 (amended): a load attempt leaves the mapping unchanged when the file
is missing or when opening/JSON-parsing raises (including a non-object top
level); but when the top level parses as an object, the object values before
the first non-object value are merged into the mapping, and the key of the
first non-object value gains an empty default entry — a failing load can
therefore change the mapping. -/
theorem claim_load_errors (s : Store) (pre : List (String × Dict))
    (k : String) (rest : List (String × JEntry)) :
    load_conversations .missing s = s ∧
    load_conversations .unparsable s = s ∧
    load_conversations
        (.parsed (pre.map (fun kv => (kv.1, JEntry.dict kv.2)) ++
          (k, JEntry.bad) :: rest)) s =
      (store_getitem
        (merge_entries s (pre.map (fun kv => (kv.1, JEntry.dict kv.2)))) k).2 := by
  refine ⟨rfl, rfl, ?_⟩
  show merge_entries s _ = _
  rw [merge_entries_append_dicts pre s ((k, JEntry.bad) :: rest)]
  rfl

/-- C8: a user never present in the mapping reads back as the empty state,
with no conversation id in it. -/
theorem claim_get_unseen_empty (s : Store) (u : String)
    (h : alist_get s u = none) :
    get_state s u = [] ∧
    alist_get (get_state s u) "conversation_id" = none := by
  simp [get_state, store_getitem, h, alist_get]

/-- C8 witness: user "u1" against a store holding only user "other". -/
theorem claim_get_unseen_empty_witness :
    get_state [("other", [("conversation_id", "z")])] "u1" = [] ∧
    alist_get (get_state [("other", [("conversation_id", "z")])] "u1")
      "conversation_id" = none :=
  claim_get_unseen_empty [("other", [("conversation_id", "z")])] "u1" (by decide)

/-- C9: when the reply of the remote call carries no conversation identifier
— every error reply included — the user's stored identifier after
`handle_message` equals its value before the call (it is never cleared). -/
theorem claim_cid_never_cleared (api : Payload → ApiResult) (s : Store)
    (u text : String)
    (h : (call_dify_api api (build_payload s u text)).1.conversation_id = none) :
    alist_get (get_state ((handle_message api s u text).1) u)
      "conversation_id" =
    alist_get (get_state s u) "conversation_id" := by
  simp only [handle_message]
  rw [h]
  rw [get_state_getitem]

/-- C9 witness: a connection failure (whose reply has no conversation id)
leaves the stored identifier of user "u1" unchanged. -/
theorem claim_cid_never_cleared_witness :
    alist_get
      (get_state
        ((handle_message (fun _ => ApiResult.connError) [] "u1" "hi").1) "u1")
      "conversation_id" =
    alist_get (get_state [] "u1") "conversation_id" :=
  claim_cid_never_cleared (fun _ => ApiResult.connError) [] "u1" "hi"
    (by rw [call_eq_conn _ _ rfl])

/-- C10: the handler's defaultdict lookup of a user not yet in the mapping
returns the empty state and appends a fresh empty entry for that user,
leaving every other entry of the mapping unchanged. -/
theorem claim_lookup_inserts_default (s : Store) (u : String)
    (h : alist_get s u = none) :
    store_getitem s u = ([], s ++ [(u, [])]) := by
  simp [store_getitem, h]

/-- C10 witness: looking up "u1" in a store holding only "other". -/
theorem claim_lookup_inserts_default_witness :
    store_getitem [("other", [("conversation_id", "z")])] "u1" =
      ([], [("other", [("conversation_id", "z")]), ("u1", [])]) :=
  claim_lookup_inserts_default [("other", [("conversation_id", "z")])] "u1"
    (by decide)

end DifyBot
